import Mathlib

/-!
Verification development for the user-management core of melo-finance-manager:
a shallow embedding of `src/user_management/app/models/user.py` (password
hashing and verification, login, bearer-token authentication, patch-payload
resolution, user-response serialization), with the repository's missing
collaborators (bcrypt, email_validator, AuthService, the Unset sentinel)
modelled from the specification.
-/

namespace Melo

/-- Modelled from the spec: §4.2 PasswordHasher.  bcrypt's implementation is not
in src/; the "encoded hash string embedding algorithm parameters and salt" is
modelled as a structure carrying the salt and a one-way digest of the plaintext
(for which the model uses the plaintext itself, since one-wayness is not a
functional property).  The fresh random salt drawn by `bcrypt.gensalt()` is made
an explicit argument. -/
structure EncodedHash where
  salt : Nat
  digest : String
deriving DecidableEq, Repr

/-- Modelled from the spec: `bcrypt.hashpw` — derive a salted hash embedding the
salt and a digest of the plaintext. -/
def hashpw (password : String) (salt : Nat) : EncodedHash :=
  ⟨salt, password⟩

/-- Modelled from the spec: `bcrypt.checkpw` — "recomputes using parameters
embedded in `stored` and compares in constant time. Never throws on mismatch —
returns false." -/
def checkpw (password : String) (stored : EncodedHash) : Bool :=
  hashpw password stored.salt == stored

/-- Split a character list on every occurrence of `sep`, keeping empty pieces,
accumulating the current piece in `acc` (reversed).  This is the semantics of
Python's `str.split(sep)` for a single-character separator:
`'' → ['']`, `'a b' → ['a','b']`, `'a  b' → ['a','','b']`. -/
def splitCharsAux (sep : Char) : List Char → List Char → List String
  | [], acc => [String.mk acc.reverse]
  | c :: rest, acc =>
      if c = sep then String.mk acc.reverse :: splitCharsAux sep rest []
      else splitCharsAux sep rest (c :: acc)

/-- Model of Python `str.split` with a single-character separator. -/
def pySplit (s : String) (sep : Char) : List String :=
  splitCharsAux sep s.data []

/-- Lowercase a string character by character (`str.lower` as used by email
normalization on the domain part). -/
def lowerStr (s : String) : String :=
  String.mk (s.data.map Char.toLower)

/-- Modelled from the spec: §4.1 Validator.  email_validator is not in src/;
`validate_email(raw).normalized` fails when `raw` is not a syntactically valid
email address and otherwise returns the canonical normalized form (here: the
domain lowercased).  Validity is modelled as: exactly one `@`, nonempty local
part and domain, the domain contains a dot, and no spaces anywhere. -/
def validateEmail (raw : String) : Option String :=
  match pySplit raw '@' with
  | [localPart, domain] =>
      if localPart ≠ "" ∧ domain ≠ "" ∧ domain.data.contains '.' ∧
          ¬ raw.data.contains ' '
      then some (localPart ++ "@" ++ lowerStr domain)
      else none
  | _ => none

/-- Exception `UnprocessableContentException` (the spec's ValidationError),
carrying its message. -/
structure UnprocessableContentException where
  message : String
deriving DecidableEq, Repr

/-- Exception `UnauthorizedException` (the spec's AuthError), carrying its
message and the optional extra response headers it was raised with. -/
structure UnauthorizedException where
  message : String
  headers : List (String × String)
deriving DecidableEq, Repr

/-- A value appearing in a resolved patch field map: either a plain string
(as it came in the JSON payload) or an encoded password hash string
(`User.hash_password(...).decode('utf-8')`, modelled structurally). -/
inductive Val where
  | str (s : String)
  | hash (h : EncodedHash)
deriving DecidableEq, Repr

/-- Modelled from the spec: `Unset`/`UnsetType` are imported from `app.config`
but their definition is not in src/.  §3: "a singleton marker type distinct
from null, used to detect omitted optional fields during partial updates". -/
inductive ValOrUnset where
  | Unset
  | val (v : Val)
deriving DecidableEq, Repr

instance {ε α : Type} [DecidableEq ε] [DecidableEq α] : DecidableEq (Except ε α) :=
  fun x y =>
  match x, y with
  | .ok a, .ok b =>
      if h : a = b then .isTrue (by rw [h])
      else .isFalse (fun hh => h (by cases hh; rfl))
  | .error a, .error b =>
      if h : a = b then .isTrue (by rw [h])
      else .isFalse (fun hh => h (by cases hh; rfl))
  | .ok _, .error _ => .isFalse (fun hh => Except.noConfusion hh)
  | .error _, .ok _ => .isFalse (fun hh => Except.noConfusion hh)

/-- The `users` table record (`class User(BaseModel)`): id plus the four
columns.  The `password` column stores the encoded hash. -/
structure User where
  id : Nat
  email : String
  password : EncodedHash
  full_name : String
  role : String
deriving DecidableEq, Repr

/-- Static method `User.hash_password`: hash the password with a fresh bcrypt salt (the salt
drawn by `bcrypt.gensalt()` is the explicit `salt` argument). -/
def User.hash_password (password : String) (salt : Nat) : EncodedHash :=
  hashpw password salt

/-- Method `User.check_password`: check the provided password against the stored
hash. -/
def User.check_password (user : User) (password : String) : Bool :=
  checkpw password user.password

/-- The `try` block of `User.login`.  The repository lookup
`cls.query.filter_by(email=email).first()` is modelled as `find?` over an
explicit store, and `AuthService.generate_token` (not in src/) as an explicit
`generate` argument.  The block raises `UnauthorizedException('User not
found')` or `('Password is incorrect')`. -/
def User.login_try_block (generate : Nat → String × String) (store : List User)
    (email password : String) : Except UnauthorizedException (String × String) :=
  match store.find? (fun u => u.email == email) with
  | none => .error ⟨"User not found", []⟩
  | some user =>
      if user.check_password password then .ok (generate user.id)
      else .error ⟨"Password is incorrect", []⟩

/-- The `except` wrapper of `User.login`: any failure of the `try` block is
re-raised as `UnauthorizedException('Invalid credentials')`. -/
def User.login (generate : Nat → String × String) (store : List User)
    (email password : String) : Except UnauthorizedException (String × String) :=
  match User.login_try_block generate store email password with
  | .ok r => .ok r
  | .error _ => .error ⟨"Invalid credentials", []⟩

/-- The `try` block of `User.authenticate`.  `token.split(' ')` is Python's
split on every single space (`pySplit · ' '`); `AuthService.verify_token`
(not in src/) is an explicit `verify_token` argument and
`cls.get_one(id=user_id)` is a lookup in the explicit store that fails when no
record has the id.  The block raises `UnauthorizedException('Invalid token')`
when the header does not match `['Bearer', token]`. -/
def User.authenticate_try_block (verify_token : String → Except String Nat)
    (store : List User) (header : String) : Except UnauthorizedException User :=
  match pySplit header ' ' with
  | [scheme, token] =>
      if scheme = "Bearer" then
        match verify_token token with
        | .ok user_id =>
            match store.find? (fun u => u.id == user_id) with
            | some u => .ok u
            | none => .error ⟨"Not found", []⟩
        | .error e => .error ⟨e, []⟩
      else .error ⟨"Invalid token", []⟩
  | _ => .error ⟨"Invalid token", []⟩

/-- The `except` wrapper of `User.authenticate`: any failure of the `try`
block is re-raised as `UnauthorizedException('Invalid Token')` with the
`WWW-Authenticate: bearer` challenge header. -/
def User.authenticate (verify_token : String → Except String Nat)
    (store : List User) (header : String) : Except UnauthorizedException User :=
  match User.authenticate_try_block verify_token store header with
  | .ok u => .ok u
  | .error _ => .error ⟨"Invalid Token", [("WWW-Authenticate", "bearer")]⟩

/-- Dataclass `UserResponse`: the outbound serialization of a user record. -/
structure UserResponse where
  email : String
  full_name : String
  role : String
deriving DecidableEq, Repr

/-- Construction of `UserResponse(...)` including `__post_init__`: re-validate and
normalize the email, raising `UnprocessableContentException` when it is
malformed. -/
def UserResponse.make (email full_name role : String) :
    Except UnprocessableContentException UserResponse :=
  match validateEmail email with
  | some normalized => .ok ⟨normalized, full_name, role⟩
  | none => .error ⟨"The email address is not valid"⟩

/-- Dataclass `PatchUserEmail`. -/
structure PatchUserEmail where
  email : String
deriving DecidableEq, Repr

/-- Construction of `PatchUserEmail(...)` including `__post_init__`: validate and
normalize the email. -/
def PatchUserEmail.make (email : String) :
    Except UnprocessableContentException PatchUserEmail :=
  match validateEmail email with
  | some normalized => .ok ⟨normalized⟩
  | none => .error ⟨"The email address is not valid"⟩

/-- Dataclass `PatchUserPassword`.  After `__post_init__`, `old_password` still
holds the plaintext and `new_password` holds the encoded hash. -/
structure PatchUserPassword where
  old_password : Val
  new_password : Val
deriving DecidableEq, Repr

/-- Construction of `PatchUserPassword(...)` including `__post_init__`: reject
equal passwords, otherwise replace `new_password` by its hash (the bcrypt salt
is the explicit `salt` argument). -/
def PatchUserPassword.make (salt : Nat) (old_password new_password : String) :
    Except UnprocessableContentException PatchUserPassword :=
  if new_password == old_password then
    .error ⟨"New password must be different from the old password"⟩
  else
    .ok ⟨.str old_password, .hash (User.hash_password new_password salt)⟩

/-- An incoming JSON patch payload: a Python dict of string keys and string
values (keys are unique in a dict; theorems that quantify over payloads carry
that as a `Nodup` hypothesis where it matters). -/
abbrev Payload := List (String × String)

/-- A resolved field map, the `dict[str, str]` returned by
`get_patch_fields`. -/
abbrev FieldMap := List (String × Val)

/-- Function `get_patch_fields`.  Python `match` mapping patterns match by key
containment: `case {'email': email}` fires whenever the dict has an `email`
key, `case {'old_password': ..., 'new_password': ...}` whenever it has both
keys, and `case {}` matches every remaining dict.  `vars(...)` of a dataclass
lists its fields in declaration order.  `PatchUser(**data)` raises `TypeError`
(re-raised as `UnprocessableContentException('Invalid data')`) when `data` has
a key other than `full_name`; the comprehension drops fields whose value is
the `Unset` sentinel, so `full_name` appears in the result exactly when it is
a key of `data`. -/
def get_patch_fields (salt : Nat) (data : Payload) :
    Except UnprocessableContentException FieldMap :=
  match data.lookup "email" with
  | some email =>
      (PatchUserEmail.make email).map fun p => [("email", Val.str p.email)]
  | none =>
    match data.lookup "old_password", data.lookup "new_password" with
    | some old_password, some new_password =>
        (PatchUserPassword.make salt old_password new_password).map fun p =>
          [("old_password", p.old_password), ("new_password", p.new_password)]
    | _, _ =>
        if data.all fun kv => kv.1 == "full_name" then
          .ok (match data.lookup "full_name" with
               | some v => [("full_name", Val.str v)]
               | none => [])
        else .error ⟨"Invalid data"⟩

end Melo

namespace Melo

/-! ## Helper lemmas -/

lemma lookup_eq_none_of_not_mem_keys {β : Type} (data : List (String × β))
    (k : String) (h : k ∉ data.map Prod.fst) : data.lookup k = none := by
  induction data with
  | nil => rfl
  | cons hd tl ih =>
      simp only [List.map_cons, List.mem_cons, not_or] at h
      have hk : (k == hd.1) = false := beq_eq_false_iff_ne.mpr h.1
      simp only [List.lookup, hk]
      exact ih h.2

/-! ## Theorems for the claims -/

/-- C4: For all plaintext passwords P1 ≠ P2, verifying P1 against the
hash of P2 returns false: no distinct password is ever accepted against
another password's hash. -/
theorem checkpw_rejects_distinct_password (p1 p2 : String) (s : Nat)
    (h : p1 ≠ p2) : checkpw p1 (User.hash_password p2 s) = false := by
  simp [checkpw, hashpw, User.hash_password, EncodedHash.mk.injEq, h]

theorem checkpw_rejects_distinct_password_witness :
    checkpw "hunter2" (User.hash_password "hunter3" 5) = false :=
  checkpw_rejects_distinct_password "hunter2" "hunter3" 5 (by decide)

/-- C6: Verifying a password against its own hash succeeds, and hashing
the same password with two distinct fresh salts yields different encoded
hashes, both of which still verify against the password. -/
theorem hash_roundtrip_and_fresh_salt :
    (∀ p s, checkpw p (User.hash_password p s) = true) ∧
    (∀ p s1 s2, s1 ≠ s2 →
      User.hash_password p s1 ≠ User.hash_password p s2 ∧
      checkpw p (User.hash_password p s1) = true ∧
      checkpw p (User.hash_password p s2) = true) := by
  constructor
  · intro p s
    simp [checkpw, hashpw, User.hash_password]
  · intro p s1 s2 hs
    refine ⟨?_, ?_, ?_⟩ <;>
      simp [checkpw, hashpw, User.hash_password, EncodedHash.mk.injEq, hs]

theorem hash_roundtrip_and_fresh_salt_witness :
    checkpw "hunter2" (User.hash_password "hunter2" 5) = true ∧
    (User.hash_password "hunter2" 5 ≠ User.hash_password "hunter2" 6 ∧
      checkpw "hunter2" (User.hash_password "hunter2" 5) = true ∧
      checkpw "hunter2" (User.hash_password "hunter2" 6) = true) :=
  ⟨hash_roundtrip_and_fresh_salt.1 "hunter2" 5,
   hash_roundtrip_and_fresh_salt.2 "hunter2" 5 6 (by decide)⟩

/-- C10: Constructing a `UserResponse` re-runs email validation and
normalization on the record's email: it fails with a ValidationError when the
stored email is malformed, and otherwise returns the record with the email
normalized. -/
theorem user_response_revalidates_email :
    (∀ email full_name role, validateEmail email = none →
      ∃ err, UserResponse.make email full_name role = .error err) ∧
    (∀ email full_name role n, validateEmail email = some n →
      UserResponse.make email full_name role = .ok ⟨n, full_name, role⟩) := by
  constructor
  · intro email full_name role h
    exact ⟨⟨"The email address is not valid"⟩, by simp [UserResponse.make, h]⟩
  · intro email full_name role n h
    simp [UserResponse.make, h]

theorem user_response_revalidates_email_witness :
    (∃ err, UserResponse.make "not an email" "Ful Nam" "user" = .error err) ∧
    UserResponse.make "a@B.COM" "Ful Nam" "user" = .ok ⟨"a@b.com", "Ful Nam", "user"⟩ :=
  ⟨user_response_revalidates_email.1 "not an email" "Ful Nam" "user" (by decide),
   user_response_revalidates_email.2 "a@B.COM" "Ful Nam" "user" "a@b.com" (by decide)⟩

/-- C1 (code bug): Evaluating the patch resolver at the failing input
`{old_password: "a", new_password: "b"}`: the equal-passwords validation does
behave as claimed (second conjunct), but the produced field map is
`{old_password: plaintext old, new_password: hash}` — `vars(PatchUserPassword)`
keeps both dataclass fields under their own names — not the claimed
`{password: hash}`, and the plaintext old password leaks into the result. -/
theorem password_patch_result_at_failing_input :
    get_patch_fields 0 [("old_password", "a"), ("new_password", "b")] =
      .ok [("old_password", Val.str "a"), ("new_password", Val.hash ⟨0, "b"⟩)] ∧
    get_patch_fields 0 [("old_password", "x"), ("new_password", "x")] =
      .error ⟨"New password must be different from the old password"⟩ :=
  ⟨rfl, rfl⟩

end Melo

namespace Melo

lemma get_patch_fields_of_exact_password_keys (salt : Nat) (data : Payload)
    (old_password new_password : String)
    (hperm : (data.map Prod.fst).Perm ["old_password", "new_password"])
    (hold : data.lookup "old_password" = some old_password)
    (hnew : data.lookup "new_password" = some new_password) :
    get_patch_fields salt data =
      (PatchUserPassword.make salt old_password new_password).map fun p =>
        [("old_password", p.old_password), ("new_password", p.new_password)] := by
  have hemail : data.lookup "email" = none := by
    apply lookup_eq_none_of_not_mem_keys
    intro hm
    have := hperm.mem_iff.mp hm
    simp at this
  simp only [get_patch_fields, hemail, hold, hnew]

/-- C2 counterexample: a payload that contains the key `email` together with
an extra unknown key does NOT fail with a ValidationError — the mapping
pattern `case {'email': email}` matches by key containment, so the resolver
returns the normalized email patch and ignores the extra key. -/
theorem email_patch_with_extra_keys_counterexample :
    get_patch_fields 0 [("email", "a@B.com"), ("extra", "x")] =
      .ok [("email", Val.str "a@b.com")] := by
  decide

/-- C2 (amended): resolve produces `{email: normalized}` exactly when the
payload CONTAINS the key `email` (any other keys are ignored) and the email is
valid; when the contained email is invalid it fails with a ValidationError;
and when the payload has no `email` key the resolved field map never contains
an `email` field. -/
theorem email_patch_by_key_containment :
    (∀ salt (data : Payload) email n, data.lookup "email" = some email →
      validateEmail email = some n →
      get_patch_fields salt data = .ok [("email", Val.str n)]) ∧
    (∀ salt (data : Payload) email, data.lookup "email" = some email →
      validateEmail email = none →
      ∃ err, get_patch_fields salt data = .error err) ∧
    (∀ salt (data : Payload) r, data.lookup "email" = none →
      get_patch_fields salt data = .ok r → r.lookup "email" = none) := by
  refine ⟨?_, ?_, ?_⟩
  · intro salt data email n hlk hv
    simp [get_patch_fields, hlk, PatchUserEmail.make, hv, Except.map]
  · intro salt data email hlk hv
    exact ⟨⟨"The email address is not valid"⟩,
      by simp [get_patch_fields, hlk, PatchUserEmail.make, hv, Except.map]⟩
  · intro salt data r he h
    simp only [get_patch_fields, he] at h
    rcases ho : data.lookup "old_password" with _ | o <;>
      rcases hn : data.lookup "new_password" with _ | n <;>
      simp only [ho, hn] at h
    case none.none | none.some | some.none =>
      split at h
      · rcases hf : data.lookup "full_name" with _ | v <;>
          simp only [hf] at h <;> cases h <;> rfl
      · cases h
    case some.some =>
      rcases hm : PatchUserPassword.make salt o n with e | p <;>
        rw [hm] at h <;> simp [Except.map] at h
      subst h
      rfl

theorem email_patch_by_key_containment_witness :
    get_patch_fields 0 [("email", "a@B.COM"), ("other", "y")] =
      .ok [("email", Val.str "a@b.com")] ∧
    (∃ err, get_patch_fields 0 [("email", "nodomain")] = .error err) ∧
    ([("full_name", Val.str "x")] : FieldMap).lookup "email" = none :=
  ⟨email_patch_by_key_containment.1 0 [("email", "a@B.COM"), ("other", "y")]
      "a@B.COM" "a@b.com" (by decide) (by decide),
   email_patch_by_key_containment.2.1 0 [("email", "nodomain")] "nodomain"
      (by decide) (by decide),
   email_patch_by_key_containment.2.2 0 [("full_name", "x")]
      [("full_name", Val.str "x")] (by decide) (by decide)⟩

/-- C7: for every payload whose key set is exactly
`{old_password, new_password}`, the resolver takes the password-patch branch:
its result is exactly the one obtained by constructing `PatchUserPassword`
from the two values (the payload is never interpreted as a generic patch,
whose only recognized field is `full_name`). -/
theorem password_patch_priority :
    ∀ salt (data : Payload) old_password new_password,
      (data.map Prod.fst).Perm ["old_password", "new_password"] →
      data.lookup "old_password" = some old_password →
      data.lookup "new_password" = some new_password →
      get_patch_fields salt data =
        (PatchUserPassword.make salt old_password new_password).map fun p =>
          [("old_password", p.old_password), ("new_password", p.new_password)] :=
  fun salt data o n hperm hold hnew =>
    get_patch_fields_of_exact_password_keys salt data o n hperm hold hnew

theorem password_patch_priority_witness :
    get_patch_fields 0 [("old_password", "a"), ("new_password", "b")] =
      (PatchUserPassword.make 0 "a" "b").map fun p =>
        [("old_password", p.old_password), ("new_password", p.new_password)] :=
  password_patch_priority 0 [("old_password", "a"), ("new_password", "b")]
    "a" "b" (by decide) (by decide) (by decide)

/-- C9: resolving a password-change payload (key set exactly
`{old_password, new_password}`, differing values) always succeeds and the
result is an explicit function of the payload values and the fresh salt
alone — `get_patch_fields` takes no user store or stored hash at all, so the
supplied old password is never verified against the user's stored
password. -/
theorem password_patch_payload_only :
    ∀ salt (data : Payload) old_password new_password,
      (data.map Prod.fst).Perm ["old_password", "new_password"] →
      data.lookup "old_password" = some old_password →
      data.lookup "new_password" = some new_password →
      old_password ≠ new_password →
      get_patch_fields salt data =
        .ok [("old_password", Val.str old_password),
             ("new_password", Val.hash (User.hash_password new_password salt))] := by
  intro salt data o n hperm hold hnew hne
  rw [get_patch_fields_of_exact_password_keys salt data o n hperm hold hnew]
  have hb : (n == o) = false := beq_eq_false_iff_ne.mpr (Ne.symm hne)
  simp [PatchUserPassword.make, hb, Except.map]

theorem password_patch_payload_only_witness :
    get_patch_fields 3 [("new_password", "n3w"), ("old_password", "0ld")] =
      .ok [("old_password", Val.str "0ld"),
           ("new_password", Val.hash (User.hash_password "n3w" 3))] :=
  password_patch_payload_only 3 [("new_password", "n3w"), ("old_password", "0ld")]
    "0ld" "n3w" (by decide) (by decide) (by decide) (by decide)

/-- C8: resolving the empty payload succeeds with the empty field map, and a
payload without a `full_name` key never produces a field map mentioning
`full_name` (the `Unset` default of the generic `PatchUser` is filtered out of
the result). -/
theorem empty_patch_and_unset_filtering :
    (∀ salt, get_patch_fields salt [] = .ok []) ∧
    (∀ salt (data : Payload) r, data.lookup "full_name" = none →
      get_patch_fields salt data = .ok r → r.lookup "full_name" = none) := by
  constructor
  · intro salt
    rfl
  · intro salt data r hfn h
    rcases he : data.lookup "email" with _ | email <;>
      simp only [get_patch_fields, he] at h
    case some =>
      rcases hm : PatchUserEmail.make email with e | p <;>
        rw [hm] at h <;> simp [Except.map] at h
      subst h
      rfl
    case none =>
      rcases ho : data.lookup "old_password" with _ | o <;>
        rcases hn : data.lookup "new_password" with _ | n <;>
        simp only [ho, hn] at h
      case none.none | none.some | some.none =>
        split at h
        · rw [hfn] at h
          cases h
          rfl
        · cases h
      case some.some =>
        rcases hm : PatchUserPassword.make salt o n with e | p <;>
          rw [hm] at h <;> simp [Except.map] at h
        subst h
        rfl

theorem empty_patch_and_unset_filtering_witness :
    get_patch_fields 0 [] = .ok [] ∧
    ([("email", Val.str "a@b.ca")] : FieldMap).lookup "full_name" = none :=
  ⟨empty_patch_and_unset_filtering.1 0,
   empty_patch_and_unset_filtering.2 0 [("email", "a@B.ca")]
     [("email", Val.str "a@b.ca")] (by decide) (by decide)⟩

/-- C3: a login with an email matching no stored user and a login with a
stored user's email but a non-matching password both fail with the identical
`AuthError` value: message "Invalid credentials" and no extra headers.  The
observable error does not reveal which internal cause occurred. -/
theorem login_anti_enumeration :
    ∀ (generate : Nat → String × String) (store : List User)
      (missing_email password1 real_email password2 : String) (u : User),
      (∀ v ∈ store, v.email ≠ missing_email) →
      store.find? (fun v => v.email == real_email) = some u →
      u.check_password password2 = false →
      User.login generate store missing_email password1 =
        .error ⟨"Invalid credentials", []⟩ ∧
      User.login generate store real_email password2 =
        .error ⟨"Invalid credentials", []⟩ := by
  intro generate store me p1 re p2 u hmiss hfind hpw
  constructor
  · have hnone : store.find? (fun v => v.email == me) = none := by
      rw [List.find?_eq_none]
      intro v hv
      simpa using hmiss v hv
    simp [User.login, User.login_try_block, hnone]
  · simp [User.login, User.login_try_block, hfind, hpw]

theorem login_anti_enumeration_witness :
    User.login (fun i => (toString i, "3600"))
      [⟨1, "real@example.com", hashpw "right" 7, "Real Name", "user"⟩]
      "missing@example.com" "whatever" = .error ⟨"Invalid credentials", []⟩ ∧
    User.login (fun i => (toString i, "3600"))
      [⟨1, "real@example.com", hashpw "right" 7, "Real Name", "user"⟩]
      "real@example.com" "wrongpass" = .error ⟨"Invalid credentials", []⟩ :=
  login_anti_enumeration (fun i => (toString i, "3600"))
    [⟨1, "real@example.com", hashpw "right" 7, "Real Name", "user"⟩]
    "missing@example.com" "whatever" "real@example.com" "wrongpass"
    ⟨1, "real@example.com", hashpw "right" 7, "Real Name", "user"⟩
    (by decide) (by decide) (by decide)

/-- C5: `authenticate` accepts an authorization header only when it splits on
single spaces into exactly `["Bearer", token]`; every other header shape, and
every failure of token verification or of the user lookup, fails with the
`AuthError` message "Invalid Token" carrying the challenge header
`WWW-Authenticate: bearer`.  The last conjunct is the acceptance direction: a
successful authentication implies the header had the exact two-token
shape. -/
theorem authenticate_bearer_shape_and_failures :
    ∀ (verify_token : String → Except String Nat) (store : List User)
      (header : String),
      ((∀ t, pySplit header ' ' ≠ ["Bearer", t]) →
        User.authenticate verify_token store header =
          .error ⟨"Invalid Token", [("WWW-Authenticate", "bearer")]⟩) ∧
      (∀ t e, pySplit header ' ' = ["Bearer", t] → verify_token t = .error e →
        User.authenticate verify_token store header =
          .error ⟨"Invalid Token", [("WWW-Authenticate", "bearer")]⟩) ∧
      (∀ t uid, pySplit header ' ' = ["Bearer", t] → verify_token t = .ok uid →
        store.find? (fun u => u.id == uid) = none →
        User.authenticate verify_token store header =
          .error ⟨"Invalid Token", [("WWW-Authenticate", "bearer")]⟩) ∧
      (∀ u, User.authenticate verify_token store header = .ok u →
        ∃ t, pySplit header ' ' = ["Bearer", t]) := by
  intro verify_token store header
  have h1 : (∀ t, pySplit header ' ' ≠ ["Bearer", t]) →
      User.authenticate verify_token store header =
        .error ⟨"Invalid Token", [("WWW-Authenticate", "bearer")]⟩ := by
    intro hshape
    unfold User.authenticate User.authenticate_try_block
    rcases hsp : pySplit header ' ' with _ | ⟨a, _ | ⟨b, _ | ⟨c, rest⟩⟩⟩
    case nil | cons.nil | cons.cons.cons => rfl
    case cons.cons.nil =>
      by_cases ha : a = "Bearer"
      · rw [ha] at hsp
        exact absurd hsp (hshape b)
      · simp [ha]
  refine ⟨h1, ?_, ?_, ?_⟩
  · intro t e hsp hv
    unfold User.authenticate User.authenticate_try_block
    rw [hsp]
    simp [hv]
  · intro t uid hsp hv hfind
    unfold User.authenticate User.authenticate_try_block
    rw [hsp]
    simp [hv, hfind]
  · intro u h
    by_contra hno
    push_neg at hno
    rw [h1 hno] at h
    cases h

theorem authenticate_bearer_shape_and_failures_witness :
    User.authenticate
      (fun t => if t = "good" then .ok 1 else .error "bad signature") []
      "NoSpace" = .error ⟨"Invalid Token", [("WWW-Authenticate", "bearer")]⟩ ∧
    User.authenticate
      (fun t => if t = "good" then .ok 1 else .error "bad signature") []
      "Bearer tampered" =
        .error ⟨"Invalid Token", [("WWW-Authenticate", "bearer")]⟩ ∧
    User.authenticate
      (fun t => if t = "good" then .ok 1 else .error "bad signature") []
      "Bearer good" =
        .error ⟨"Invalid Token", [("WWW-Authenticate", "bearer")]⟩ ∧
    (∃ t, pySplit "Bearer good" ' ' = ["Bearer", t]) := by
  refine ⟨?_, ?_, ?_, ?_⟩
  · refine (authenticate_bearer_shape_and_failures _ [] "NoSpace").1 ?_
    intro t h
    rw [show pySplit "NoSpace" ' ' = ["NoSpace"] from by decide] at h
    exact absurd (List.cons.inj h).1 (by decide)
  · exact (authenticate_bearer_shape_and_failures _ [] "Bearer tampered").2.1
      "tampered" "bad signature" (by decide) (by decide)
  · exact (authenticate_bearer_shape_and_failures _ [] "Bearer good").2.2.1
      "good" 1 (by decide) (by decide) (by decide)
  · exact (authenticate_bearer_shape_and_failures
      (fun t => if t = "good" then .ok 1 else .error "bad signature")
      [⟨1, "e@x.com", hashpw "p" 0, "N", "user"⟩] "Bearer good").2.2.2
      ⟨1, "e@x.com", hashpw "p" 0, "N", "user"⟩ (by decide)

end Melo
